import Mathlib

/-!
Verification development for the image-preprocessing pipeline of
`bnn_optimization` (files `data/imagenet.py` and `utils.py`).

The embedding is shallow and executable:

* An image tensor of rank 3 is a structure holding its shape
  `(height, width, channels)` together with a pixel function; pixel
  intensities are exact rationals, abstracting the float32 arithmetic of
  the original (the claims under study concern shapes, control flow and
  error behaviour, plus integer geometry, where exact arithmetic agrees
  with the reference computation).
* Fallible TensorFlow operations (`tf.slice` with out-of-range bounds,
  `tf.random.uniform` with an empty integer range, `tf.broadcast_to`
  with incompatible shapes, `Tensor.set_shape` with an incompatible
  shape, and the explicit Python `raise ValueError` sites) return
  `Except PipelineError`.
* The two stochastic decisions of the training path (resize-side draw,
  crop position, flip) read from an explicit `RandomSource` record: one
  raw draw per `tf.random.uniform` call plus the flip coin, which makes
  "for every outcome of the random source" a plain universal quantifier.
-/

namespace BnnOptimization

/-- Error outcomes of the pipeline.  The first group names the failure
sites that the translated code can actually reach; `cropTooLarge`,
`invalidStatistic` and `invalidRank` are the names used by the
specification's error taxonomy and are included so that claims phrased
in terms of them can be stated (the translated code never produces
them, which is what several claims turn on). -/
inductive PipelineError where
  | channelMismatch
  | broadcastError
  | sliceError
  | randomUniformError
  | shapeMismatch
  | cropTooLarge
  | invalidStatistic
  | invalidRank
  deriving DecidableEq, Repr

/-- A dense rank-3 image tensor: shape `(height, width, channels)` plus a
total pixel function (indices outside the shape are irrelevant to every
statement below).  Rank 3 is built into the type, mirroring the code's
assumption of already-decoded `[height, width, C]` tensors. -/
structure Image where
  height : Nat
  width : Nat
  channels : Nat
  pixel : Nat → Nat → Nat → ℚ

/-- The raw draws consumed by the stochastic operations of one training
call: `sideDraw` feeds the resize-side `tf.random.uniform`, `topDraw`
and `leftDraw` feed the two crop-offset draws, and `flipDraw` is the
coin of `tf.image.random_flip_left_right`. -/
structure RandomSource where
  sideDraw : Nat
  topDraw : Nat
  leftDraw : Nat
  flipDraw : Bool

/-- Truncating cast from float to int32 (`tf.cast(x, tf.int32)` rounds
toward zero), modelled on exact rationals. -/
def truncToInt (q : ℚ) : Int :=
  if 0 ≤ q then ⌊q⌋ else -⌊-q⌋

/-- Model of `tf.random.uniform([], minval, maxval, dtype=tf.int32)`
fed by one raw draw: the op fails unless `minval < maxval`, and
otherwise returns a value in `[minval, maxval)`; every such value is
attained by some draw. -/
def tfRandomUniformInt (minval maxval : Int) (draw : Nat) : Except PipelineError Int :=
  if maxval ≤ minval then .error .randomUniformError
  else .ok (minval + (draw % (maxval - minval).toNat : Nat))

/-- The in-bounds payload of `tf.slice image [top, left, 0] [sh, sw, -1]`:
the window of size `sh × sw` at offset `(top, left)`, keeping every
channel. -/
def sliceImage (image : Image) (top left : Nat) (sh sw : Nat) : Image :=
  { height := sh, width := sw, channels := image.channels,
    pixel := fun i j c => image.pixel (top + i) (left + j) c }

/-- Model of `tf.slice image [top, left, 0] [sh, sw, -1]`: fails (TF
raises an invalid-argument error) unless the requested window lies
inside the image. -/
def tfSlice (image : Image) (top left : Int) (sh sw : Nat) : Except PipelineError Image :=
  if 0 ≤ top ∧ 0 ≤ left ∧ top + sh ≤ (image.height : Int) ∧ left + sw ≤ (image.width : Int)
  then .ok (sliceImage image top.toNat left.toNat sh sw)
  else .error .sliceError

/-- Left-right mirror of an image (`tf.image.flip_left_right`). -/
def flip_left_right (image : Image) : Image :=
  { image with pixel := fun i j c => image.pixel i (image.width - 1 - j) c }

/-- Model of `tf.image.random_flip_left_right`, taking the coin
explicitly. -/
def random_flip_left_right (image : Image) (coin : Bool) : Image :=
  if coin then flip_left_right image else image

/-- Model of `tf.broadcast_to` of a 1-D statistics vector `v` against a
`[height, width, channels]` shape: legal exactly when `v` has length
`channels` or length 1, and the result assigns to channel `c` the entry
`v[c mod len v]` (the single entry when `len v = 1`). -/
def broadcast_to (v : List ℚ) (channels : Nat) : Except PipelineError (Nat → ℚ) :=
  if v.length = channels ∨ v.length = 1 then .ok (fun c => v.getD (c % v.length) 0)
  else .error .broadcastError

/-- `_get_h_w` of the source: the height and width of an image. -/
def _get_h_w (image : Image) : Nat × Nat :=
  (image.height, image.width)

/-- `_random_crop_and_flip` of the source: draw `crop_top` from
`[0, height - crop_height]` and `crop_left` from `[0, width - crop_width]`
via `tf.random.uniform` with `maxval = total + 1`, slice, then randomly
flip.  The int32 tensor arithmetic (which may go negative) is carried
out in `Int`. -/
def _random_crop_and_flip (image : Image) (crop_height crop_width : Nat)
    (rand : RandomSource) : Except PipelineError Image := do
  let height := (_get_h_w image).1
  let width := (_get_h_w image).2
  let total_crop_height : Int := (height : Int) - (crop_height : Int)
  let crop_top ← tfRandomUniformInt 0 (total_crop_height + 1) rand.topDraw
  let total_crop_width : Int := (width : Int) - (crop_width : Int)
  let crop_left ← tfRandomUniformInt 0 (total_crop_width + 1) rand.leftDraw
  let cropped ← tfSlice image crop_top crop_left crop_height crop_width
  Except.ok (random_flip_left_right cropped rand.flipDraw)

/-- `_central_crop` of the source: offsets `(height - crop_height) // 2`
and `(width - crop_width) // 2` (TF integer `//` is floor division,
hence `Int.fdiv`), then slice.  No flip, no random draw. -/
def _central_crop (image : Image) (crop_height crop_width : Nat) :
    Except PipelineError Image :=
  let height := (_get_h_w image).1
  let width := (_get_h_w image).2
  let total_crop_height : Int := (height : Int) - (crop_height : Int)
  let crop_top := total_crop_height.fdiv 2
  let total_crop_width : Int := (width : Int) - (crop_width : Int)
  let crop_left := total_crop_width.fdiv 2
  tfSlice image crop_top crop_left crop_height crop_width

/-- `_mean_image_subtraction` of the source.  The rank guard
(`image.get_shape().ndims != 3`) cannot fire here because `Image` is
rank 3 by construction; the explicit channel-count guard on `means` is
the `ValueError` the source raises when `len(means)` differs from the
channel count. -/
def _mean_image_subtraction (image : Image) (means : List ℚ) :
    Except PipelineError Image :=
  let num_channels := image.channels
  if means.length ≠ num_channels then .error .channelMismatch
  else do
    let m ← broadcast_to means num_channels
    Except.ok { image with pixel := fun i j c => image.pixel i j c - m c }

/-- `_scale_normalization` of the source: broadcast the stds vector and
divide.  Note there is no guard of any kind in the source: no length
check (only `tf.broadcast_to`'s own shape rule applies) and no
positivity check on the entries. -/
def _scale_normalization (image : Image) (stds : List ℚ) :
    Except PipelineError Image := do
  let s ← broadcast_to stds image.channels
  Except.ok { image with pixel := fun i j c => image.pixel i j c / s c }

/-- `_smallest_size_at_least` of the source: cast everything to float,
take `scale = smallest_side / min height width`, and cast
`height * scale` and `width * scale` back to int32 (truncation).  The
float32 arithmetic is modelled exactly over ℚ. -/
def _smallest_size_at_least (height width smallest_side : Nat) : Int × Int :=
  let smallest_side_f : ℚ := (smallest_side : ℚ)
  let height_f : ℚ := (height : ℚ)
  let width_f : ℚ := (width : ℚ)
  let smaller_dim : ℚ := min height_f width_f
  let scale_factor : ℚ := smallest_side_f / smaller_dim
  (truncToInt (height_f * scale_factor), truncToInt (width_f * scale_factor))

/-- Bilinear resampling to `new_height × new_width` in the TF1
`align_corners=False` convention: source coordinate `out_index * scale`
with `scale = in_size / out_size`, interpolating between the floor
coordinate and its clamped successor.  Exact rationals stand in for
float32.  Shape is `(new_height, new_width, channels)` by
construction. -/
def resizeBilinear (image : Image) (new_height new_width : Nat) : Image :=
  { height := new_height, width := new_width, channels := image.channels,
    pixel := fun i j c =>
      let scale_y : ℚ := (image.height : ℚ) / (new_height : ℚ)
      let scale_x : ℚ := (image.width : ℚ) / (new_width : ℚ)
      let in_y : ℚ := (i : ℚ) * scale_y
      let in_x : ℚ := (j : ℚ) * scale_x
      let top : Int := truncToInt in_y
      let left : Int := truncToInt in_x
      let bottom : Int := min (top + 1) ((image.height : Int) - 1)
      let right : Int := min (left + 1) ((image.width : Int) - 1)
      let ty : ℚ := in_y - (top : ℚ)
      let tx : ℚ := in_x - (left : ℚ)
      let p00 := image.pixel top.toNat left.toNat c
      let p01 := image.pixel top.toNat right.toNat c
      let p10 := image.pixel bottom.toNat left.toNat c
      let p11 := image.pixel bottom.toNat right.toNat c
      (1 - ty) * ((1 - tx) * p00 + tx * p01) + ty * ((1 - tx) * p10 + tx * p11) }

/-- `_aspect_preserving_resize` of the source: compute the new shape
with `_smallest_size_at_least` and resample bilinearly. -/
def _aspect_preserving_resize (image : Image) (smallest_side : Nat) : Image :=
  let height := (_get_h_w image).1
  let width := (_get_h_w image).2
  let new_height := (_smallest_size_at_least height width smallest_side).1
  let new_width := (_smallest_size_at_least height width smallest_side).2
  resizeBilinear image new_height.toNat new_width.toNat

/-- Model of `Tensor.set_shape [h, w, c]` (eager semantics): succeeds,
returning the tensor unchanged, exactly when the actual shape is
`(h, w, c)`; otherwise TF raises the incompatible-shape `ValueError`,
the spec's `ShapeMismatch`. -/
def set_shape (image : Image) (h w c : Nat) : Except PipelineError Image :=
  if image.height = h ∧ image.width = w ∧ image.channels = c then .ok image
  else .error .shapeMismatch

def _R_MEAN : ℚ := 123.68

def _G_MEAN : ℚ := 116.78

def _B_MEAN : ℚ := 103.94

def _R_STD : ℚ := 0.229 * 255

def _G_STD : ℚ := 0.224 * 255

def _B_STD : ℚ := 0.225 * 255

def _RESIZE_SIDE_MIN : Nat := 256

def _RESIZE_SIDE_MAX : Nat := 512

/-- `preprocess_image` of the source, the pipeline orchestrator.
Training mode draws `resize_side` uniformly from
`[resize_side_min, resize_side_max]` (via `maxval = resize_side_max + 1`)
and uses the random crop-and-flip; evaluation mode uses
`resize_side = resize_side_min` and the central crop.  The channel
count is recorded before any transform and re-imposed by `set_shape`
after the crop.  The `tf.cast(image, tf.float32)` step is the identity
in the rational model. -/
def preprocess_image (image : Image) (output_height output_width : Nat)
    (is_training : Bool) (resize_side_min resize_side_max : Nat)
    (rand : RandomSource) : Except PipelineError Image :=
  (if is_training then
    tfRandomUniformInt (resize_side_min : Int) ((resize_side_max : Int) + 1) rand.sideDraw
  else
    Except.ok (resize_side_min : Int)) >>= fun resize_side =>
  let num_channels := image.channels
  let resized := _aspect_preserving_resize image resize_side.toNat
  (if is_training then
    _random_crop_and_flip resized output_height output_width rand
  else
    _central_crop resized output_height output_width) >>= fun cropped =>
  set_shape cropped output_height output_width num_channels >>= fun shaped =>
  _mean_image_subtraction shaped [_R_MEAN, _G_MEAN, _B_MEAN] >>= fun centered =>
  _scale_normalization centered [_R_STD, _G_STD, _B_STD]

/-- The registered `"imagenet2012"` entry point (`default` in the
source): `preprocess_image` with a 224 × 224 output and the default
resize-side bounds. -/
def defaultPreprocess (image : Image) (training : Bool) (rand : RandomSource) :
    Except PipelineError Image :=
  preprocess_image image 224 224 training _RESIZE_SIDE_MIN _RESIZE_SIDE_MAX rand

/-- Shape of a pipeline result, when it succeeded. -/
def shapeOf (r : Except PipelineError Image) : Option (Nat × Nat × Nat) :=
  r.toOption.map fun image => (image.height, image.width, image.channels)

/-- A concrete test image with distinct pixel values. -/
def testImage (h w c : Nat) : Image :=
  { height := h, width := w, channels := c,
    pixel := fun i j k => (i : ℚ) * 1000 + (j : ℚ) * 10 + (k : ℚ) }

/-- A fixed random source for concrete runs. -/
def rand0 : RandomSource :=
  { sideDraw := 0, topDraw := 0, leftDraw := 0, flipDraw := false }

/-- A random source whose crop draws hit the maximal offsets of a
300 × 300 image cropped to 224 × 224. -/
def rand76 : RandomSource :=
  { sideDraw := 0, topDraw := 76, leftDraw := 76, flipDraw := false }

/-! ### Model of the epoch bookkeeping in `utils.py`

`get_current_epoch` opens `output_dir/stats.json`, parses it as JSON and
returns the `"epoch"` field, with a bare `except:` that turns every
failure into 0.  `ModelCheckpoint.on_epoch_end(epoch)` writes
`{"epoch": epoch + 1}` to that file.  The file system and the JSON
round trip are abstracted into the observable states of the stats file:
missing (`open` raises), malformed (`json.load` raises), or parsed into
its integer fields keyed by `StatsKey` (the `"epoch"` key abstracted as
a constructor; a field lookup miss is the `KeyError` of `[...]`). -/

/-- Abstract JSON object keys of the stats file. -/
inductive StatsKey where
  | epoch
  | other (n : Nat)
  deriving DecidableEq, BEq, Repr

/-- Observable states of `output_dir/stats.json` as `get_current_epoch`
reads it. -/
inductive StatsFileState where
  | missing
  | malformed
  | parsed (fields : List (StatsKey × Int))
  deriving Repr

/-- The exceptions the `try` block of `get_current_epoch` can raise. -/
inductive ReadError where
  | fileNotFound
  | jsonDecodeError
  | keyError
  deriving DecidableEq, Repr

/-- The body of the `try` block of `get_current_epoch`:
`json.load(open(output_dir + "/stats.json"))["epoch"]`, with each
failure mode surfaced as the exception it raises. -/
def tryReadEpoch : StatsFileState → Except ReadError Int
  | .missing => .error .fileNotFound
  | .malformed => .error .jsonDecodeError
  | .parsed fields =>
    match fields.lookup StatsKey.epoch with
    | some v => .ok v
    | none => .error .keyError

/-- `get_current_epoch` of the source: the `try` body with a bare
`except: return 0`. -/
def get_current_epoch (output_dir : StatsFileState) : Int :=
  match tryReadEpoch output_dir with
  | .ok e => e
  | .error _ => 0

/-- The stats file written by `ModelCheckpoint.on_epoch_end(epoch)`:
`json.dump({"epoch": epoch + 1}, f)`, i.e. a parsed state holding the
single integer field `epoch + 1`. -/
def on_epoch_end (epoch : Int) : StatsFileState :=
  .parsed [(StatsKey.epoch, epoch + 1)]

end BnnOptimization

namespace BnnOptimization

/-! ### Theorems -/

/-- C8: in evaluation mode the orchestrator is deterministic — for the
same image and the same `resize_side_min`, the output is identical for
every random source and every `resize_side_max`: no random draw occurs
on the evaluation path and `resize_side_max` is ignored. -/
theorem eval_mode_deterministic (image : Image) (oh ow rsm rsM rsM2 : Nat)
    (r r2 : RandomSource) :
    preprocess_image image oh ow false rsm rsM r =
      preprocess_image image oh ow false rsm rsM2 r2 := rfl

/-- C9: whenever reading the persisted epoch counter fails — missing
file, malformed content, or content lacking the epoch field —
`get_current_epoch` returns 0 instead of propagating the error. -/
theorem get_current_epoch_defaults_to_zero (d : StatsFileState) (e : ReadError)
    (h : tryReadEpoch d = .error e) : get_current_epoch d = 0 := by
  unfold get_current_epoch
  rw [h]

/-- Witness for C9: all three failure states — missing file, malformed
content, and a parsed object without the epoch field — default to 0. -/
theorem get_current_epoch_defaults_to_zero_witness :
    tryReadEpoch StatsFileState.missing = Except.error ReadError.fileNotFound ∧
    get_current_epoch StatsFileState.missing = 0 ∧
    tryReadEpoch StatsFileState.malformed = Except.error ReadError.jsonDecodeError ∧
    get_current_epoch StatsFileState.malformed = 0 ∧
    tryReadEpoch (StatsFileState.parsed []) = Except.error ReadError.keyError ∧
    get_current_epoch (StatsFileState.parsed []) = 0 :=
  ⟨rfl, get_current_epoch_defaults_to_zero _ ReadError.fileNotFound rfl,
   rfl, get_current_epoch_defaults_to_zero _ ReadError.jsonDecodeError rfl,
   rfl, get_current_epoch_defaults_to_zero _ ReadError.keyError rfl⟩

/-- C10: the epoch persistence round trip carries an off-by-one
convention — after `on_epoch_end epoch` writes the stats record,
`get_current_epoch` returns `epoch + 1`, the count of completed epochs
rather than the zero-based index of the epoch that ended. -/
theorem epoch_round_trip (epoch : Int) :
    get_current_epoch (on_epoch_end epoch) = epoch + 1 := rfl

end BnnOptimization

namespace BnnOptimization

/-- Counterexample for C2: a 1-element stds vector against a 3-channel
image does NOT fail — `tf.broadcast_to` happily broadcasts a length-1
vector — although its length differs from the channel count, so the
claimed ChannelMismatch failure for every mismatched stds length is
false. -/
theorem stds_length_one_counterexample :
    (_scale_normalization (testImage 1 1 3) [1]).isOk = true ∧
    ([(1 : ℚ)].length ≠ (testImage 1 1 3).channels) :=
  ⟨rfl, by decide⟩

/-- C2 as amended: the means vector is explicitly length-checked
(`ChannelMismatch` whenever `len means ≠ C`), but the stds vector is
not length-checked at all — the division only broadcasts, which fails
(with the broadcast error of `tf.broadcast_to`, not the explicit
channel check) when `len stds` is neither `C` nor 1, and silently
succeeds when `len stds = 1`. -/
theorem normalize_channel_check_behavior :
    (∀ (image : Image) (means : List ℚ), means.length ≠ image.channels →
      _mean_image_subtraction image means = Except.error PipelineError.channelMismatch) ∧
    (∀ (image : Image) (stds : List ℚ), stds.length ≠ image.channels → stds.length ≠ 1 →
      _scale_normalization image stds = Except.error PipelineError.broadcastError) ∧
    (∀ (image : Image) (stds : List ℚ), stds.length = 1 →
      (_scale_normalization image stds).isOk = true) := by
  refine ⟨?_, ?_, ?_⟩
  · intro image means h
    unfold _mean_image_subtraction
    simp [h]
  · intro image stds h1 h2
    unfold _scale_normalization broadcast_to
    have hcond : ¬(stds.length = image.channels ∨ stds.length = 1) := by
      rintro (hc | hc) <;> [exact h1 hc; exact h2 hc]
    simp [hcond, Bind.bind, Except.bind]
  · intro image stds h
    unfold _scale_normalization broadcast_to
    simp [h, Bind.bind, Except.bind, Except.isOk, Except.toBool]

/-- Witness for C2: the three behaviours at concrete inputs — a
2-element means vector against a 3-channel image hits the explicit
channel check; a 2-element stds vector hits the broadcast failure; a
1-element stds vector sails through. -/
theorem normalize_channel_check_behavior_witness :
    (([(1 : ℚ), 2].length ≠ (testImage 1 1 3).channels) ∧
      _mean_image_subtraction (testImage 1 1 3) [1, 2] =
        Except.error PipelineError.channelMismatch) ∧
    (([(1 : ℚ), 2].length ≠ (testImage 1 1 3).channels) ∧ ([(1 : ℚ), 2].length ≠ 1) ∧
      _scale_normalization (testImage 1 1 3) [1, 2] =
        Except.error PipelineError.broadcastError) ∧
    (([(7 : ℚ)].length = 1) ∧
      (_scale_normalization (testImage 1 1 3) [7]).isOk = true) :=
  ⟨⟨by decide, normalize_channel_check_behavior.1 (testImage 1 1 3) [1, 2] (by decide)⟩,
   ⟨by decide, by decide,
    normalize_channel_check_behavior.2.1 (testImage 1 1 3) [1, 2] (by decide) (by decide)⟩,
   ⟨by decide, normalize_channel_check_behavior.2.2 (testImage 1 1 3) [7] (by decide)⟩⟩

/-- Counterexample for C3: a stds vector containing a zero and a
negative entry produces no error at all — the code performs the
division unguarded, so no InvalidStatistic failure exists. -/
theorem zero_std_no_error_counterexample :
    (_scale_normalization (testImage 1 1 3) [0, -1, 5]).isOk = true ∧
    ((0 : ℚ) ∈ ([0, -1, 5] : List ℚ)) ∧ ((-1 : ℚ) < 0) :=
  ⟨rfl, by norm_num, by norm_num⟩

/-- C3 as amended: `_scale_normalization` performs no validation of the
standard deviations whatsoever — whenever the vector broadcasts
(length `C` or 1), the channel-wise division is carried out regardless
of zero or negative entries (in TensorFlow the float division then
yields non-finite values instead of an error). -/
theorem scale_norm_no_positivity_check (image : Image) (stds : List ℚ)
    (h : stds.length = image.channels ∨ stds.length = 1) :
    _scale_normalization image stds =
      Except.ok { image with
        pixel := fun i j c => image.pixel i j c / stds.getD (c % stds.length) 0 } := by
  unfold _scale_normalization broadcast_to
  simp [h, Bind.bind, Except.bind]

/-- Witness for C3: the division goes through on a 3-channel image with
stds `[0, -1, 5]`. -/
theorem scale_norm_no_positivity_check_witness :
    (([(0 : ℚ), -1, 5].length = (testImage 1 1 3).channels ∨
        ([(0 : ℚ), -1, 5].length = 1)) ∧
      _scale_normalization (testImage 1 1 3) [0, -1, 5] =
        Except.ok { testImage 1 1 3 with
          pixel := fun i j c => (testImage 1 1 3).pixel i j c / ([0, -1, 5] : List ℚ).getD (c % ([0, -1, 5] : List ℚ).length) 0 }) :=
  ⟨Or.inl (by decide),
   scale_norm_no_positivity_check (testImage 1 1 3) [0, -1, 5] (Or.inl (by decide))⟩

end BnnOptimization

namespace BnnOptimization

/-- Counterexample for C1: cropping a 100 × 100 image to 224 × 224 does
fail, but not with the claimed dedicated CropTooLarge error and not via
an explicit precondition check — the central variant dies inside
`tf.slice` (negative offsets) and the random variant dies inside
`tf.random.uniform` (empty integer range). -/
theorem crop_error_kind_counterexample :
    _central_crop (testImage 100 100 3) 224 224 = Except.error PipelineError.sliceError ∧
    _random_crop_and_flip (testImage 100 100 3) 224 224 rand0 =
      Except.error PipelineError.randomUniformError ∧
    PipelineError.sliceError ≠ PipelineError.cropTooLarge ∧
    PipelineError.randomUniformError ≠ PipelineError.cropTooLarge :=
  ⟨rfl, rfl, by decide, by decide⟩

/-- C1 as amended: neither crop variant checks the size precondition
explicitly and no CropTooLarge error exists; on an image smaller than
the requested crop both variants still fail, but implicitly — the
central crop through the out-of-range slice, the random crop through
the random offset draw whose integer range is empty. -/
theorem crop_too_small_fails_implicitly (image : Image) (ch cw : Nat)
    (rand : RandomSource) (h : image.height < ch ∨ image.width < cw) :
    _central_crop image ch cw = Except.error PipelineError.sliceError ∧
    _random_crop_and_flip image ch cw rand =
      Except.error PipelineError.randomUniformError := by
  constructor
  · simp only [_central_crop, _get_h_w, tfSlice]
    split
    · next hcond =>
      exfalso
      obtain ⟨h1, h2, h3, h4⟩ := hcond
      rw [Int.fdiv_eq_ediv _ (by norm_num)] at h1
      rw [Int.fdiv_eq_ediv _ (by norm_num)] at h2
      omega
    · rfl
  · simp only [_random_crop_and_flip, _get_h_w, tfRandomUniformInt, Bind.bind]
    by_cases hH : (image.height : Int) - (ch : Int) + 1 ≤ 0
    · rw [if_pos hH]
      rfl
    · have hW : (image.width : Int) - (cw : Int) + 1 ≤ 0 := by omega
      rw [if_neg hH]
      simp only [Except.bind]
      rw [if_pos hW]

/-- Witness for C1: the 100 × 100 to 224 × 224 scenario. -/
theorem crop_too_small_fails_implicitly_witness :
    ((testImage 100 100 3).height < 224 ∨ (testImage 100 100 3).width < 224) ∧
    _central_crop (testImage 100 100 3) 224 224 = Except.error PipelineError.sliceError ∧
    _random_crop_and_flip (testImage 100 100 3) 224 224 rand0 =
      Except.error PipelineError.randomUniformError :=
  ⟨Or.inl (by decide),
   (crop_too_small_fails_implicitly (testImage 100 100 3) 224 224 rand0
      (Or.inl (by decide))).1,
   (crop_too_small_fails_implicitly (testImage 100 100 3) 224 224 rand0
      (Or.inl (by decide))).2⟩

end BnnOptimization

namespace BnnOptimization

/-- C6: for an image at least as large as the requested crop, the
central crop deterministically extracts the window at
`top = (H - h) / 2`, `left = (W - w) / 2`, applies no flip, and the
result has exactly shape `(h, w, channels)`. -/
theorem central_crop_spec (image : Image) (ch cw : Nat)
    (hh : ch ≤ image.height) (hw : cw ≤ image.width) :
    _central_crop image ch cw =
      Except.ok (sliceImage image ((image.height - ch) / 2) ((image.width - cw) / 2) ch cw) ∧
    shapeOf (_central_crop image ch cw) = some (ch, cw, image.channels) := by
  have h1 : ((image.height : Int) - (ch : Int)).fdiv 2 =
      (((image.height - ch) / 2 : Nat) : Int) := by
    rw [Int.fdiv_eq_ediv _ (by norm_num)]
    omega
  have h2 : ((image.width : Int) - (cw : Int)).fdiv 2 =
      (((image.width - cw) / 2 : Nat) : Int) := by
    rw [Int.fdiv_eq_ediv _ (by norm_num)]
    omega
  have hmain : _central_crop image ch cw =
      Except.ok (sliceImage image ((image.height - ch) / 2) ((image.width - cw) / 2) ch cw) := by
    simp only [_central_crop, _get_h_w, tfSlice, h1, h2]
    rw [if_pos]
    · rw [Int.toNat_natCast, Int.toNat_natCast]
    · have d1 : (image.height - ch) / 2 ≤ image.height - ch := Nat.div_le_self _ _
      have d2 : (image.width - cw) / 2 ≤ image.width - cw := Nat.div_le_self _ _
      refine ⟨?_, ?_, ?_, ?_⟩ <;> omega
  exact ⟨hmain, by rw [hmain]; rfl⟩

/-- Witness for C6: a 5 × 6 image cropped centrally to 2 × 2 selects
`top = 1`, `left = 2`. -/
theorem central_crop_spec_witness :
    (2 ≤ (testImage 5 6 3).height) ∧ (2 ≤ (testImage 5 6 3).width) ∧
    (_central_crop (testImage 5 6 3) 2 2 =
        Except.ok (sliceImage (testImage 5 6 3) 1 2 2 2) ∧
      shapeOf (_central_crop (testImage 5 6 3) 2 2) = some (2, 2, 3)) :=
  ⟨by decide, by decide, central_crop_spec (testImage 5 6 3) 2 2 (by decide) (by decide)⟩

end BnnOptimization

namespace BnnOptimization

/-- Evaluation of the random crop on a sufficiently large image: the
drawn offsets are exactly `draw mod (total + 1)` and the call returns
the corresponding in-bounds slice, flipped iff the coin says so. -/
theorem random_crop_eval (image : Image) (ch cw : Nat) (rand : RandomSource)
    (hh : ch ≤ image.height) (hw : cw ≤ image.width) :
    _random_crop_and_flip image ch cw rand =
      Except.ok (random_flip_left_right
        (sliceImage image (rand.topDraw % (image.height - ch + 1))
          (rand.leftDraw % (image.width - cw + 1)) ch cw) rand.flipDraw) := by
  have e1 : ((image.height : Int) - (ch : Int) + 1 - 0).toNat = image.height - ch + 1 := by
    omega
  have e2 : ((image.width : Int) - (cw : Int) + 1 - 0).toNat = image.width - cw + 1 := by
    omega
  have hm1 : rand.topDraw % (image.height - ch + 1) < image.height - ch + 1 :=
    Nat.mod_lt _ (by omega)
  have hm2 : rand.leftDraw % (image.width - cw + 1) < image.width - cw + 1 :=
    Nat.mod_lt _ (by omega)
  simp only [_random_crop_and_flip, _get_h_w, tfRandomUniformInt, Bind.bind]
  rw [if_neg (show ¬ ((image.height : Int) - (ch : Int) + 1 ≤ 0) by omega)]
  simp only [Except.bind]
  rw [if_neg (show ¬ ((image.width : Int) - (cw : Int) + 1 ≤ 0) by omega)]
  simp only [Except.bind, e1, e2]
  unfold tfSlice
  rw [if_pos]
  · simp only [Except.bind, zero_add, Int.toNat_natCast]
  · refine ⟨?_, ?_, ?_, ?_⟩ <;> omega

/-- C7: for every image at least as large as the crop and every outcome
of the injected random source, the random crop's offsets are
`topDraw mod (H - h + 1)` and `leftDraw mod (W - w + 1)` — hence always
within `[0, H - h]` and `[0, W - w]` inclusive — and the call extracts
exactly that in-bounds window (then flips or not); endpoints are
attained by suitable draws, as the witness shows. -/
theorem random_crop_bounds (image : Image) (ch cw : Nat) (rand : RandomSource)
    (hh : ch ≤ image.height) (hw : cw ≤ image.width) :
    rand.topDraw % (image.height - ch + 1) ≤ image.height - ch ∧
    rand.leftDraw % (image.width - cw + 1) ≤ image.width - cw ∧
    _random_crop_and_flip image ch cw rand =
      Except.ok (random_flip_left_right
        (sliceImage image (rand.topDraw % (image.height - ch + 1))
          (rand.leftDraw % (image.width - cw + 1)) ch cw) rand.flipDraw) := by
  have hm1 : rand.topDraw % (image.height - ch + 1) < image.height - ch + 1 :=
    Nat.mod_lt _ (by omega)
  have hm2 : rand.leftDraw % (image.width - cw + 1) < image.width - cw + 1 :=
    Nat.mod_lt _ (by omega)
  exact ⟨by omega, by omega, random_crop_eval image ch cw rand hh hw⟩

/-- Witness for C7: on a 300 × 300 image cropped to 224 × 224, the
offsets always lie in `[0, 76]`; the draw 76 attains the maximal corner
`(76, 76)` and the draw 0 attains the origin. -/
theorem random_crop_bounds_witness :
    (224 ≤ (testImage 300 300 3).height) ∧ (224 ≤ (testImage 300 300 3).width) ∧
    (76 % 77 ≤ 76 ∧ 76 % 77 ≤ 76 ∧
      _random_crop_and_flip (testImage 300 300 3) 224 224 rand76 =
        Except.ok (random_flip_left_right
          (sliceImage (testImage 300 300 3) (76 % 77) (76 % 77) 224 224) rand76.flipDraw)) ∧
    (0 % 77 ≤ 76 ∧ 0 % 77 ≤ 76 ∧
      _random_crop_and_flip (testImage 300 300 3) 224 224 rand0 =
        Except.ok (random_flip_left_right
          (sliceImage (testImage 300 300 3) (0 % 77) (0 % 77) 224 224) rand0.flipDraw)) :=
  ⟨by decide, by decide,
   random_crop_bounds (testImage 300 300 3) 224 224 rand76 (by decide) (by decide),
   random_crop_bounds (testImage 300 300 3) 224 224 rand0 (by decide) (by decide)⟩

end BnnOptimization

namespace BnnOptimization

/-- The truncating cast agrees with the floor on nonnegative values. -/
theorem truncToInt_of_nonneg (q : ℚ) (h : 0 ≤ q) : truncToInt q = ⌊q⌋ := if_pos h

/-- Scaling the smaller side by `s / a` and flooring recovers `s`
exactly. -/
theorem floor_scale_eq (a s : Nat) (ha : 0 < a) :
    ⌊(a : ℚ) * ((s : ℚ) / (a : ℚ))⌋ = (s : Int) := by
  have hne : (a : ℚ) ≠ 0 := by positivity
  rw [mul_div_cancel₀ _ hne]
  exact Int.floor_natCast s

/-- Scaling the larger side by `s / a` and flooring lands at or above
`s`. -/
theorem floor_scale_ge (a b s : Nat) (ha : 0 < a) (hab : a ≤ b) :
    (s : Int) ≤ ⌊(b : ℚ) * ((s : ℚ) / (a : ℚ))⌋ := by
  rw [Int.le_floor]
  have hne : (a : ℚ) ≠ 0 := by positivity
  have h1 : (a : ℚ) * ((s : ℚ) / (a : ℚ)) = (s : ℚ) := mul_div_cancel₀ _ hne
  have h2 : (a : ℚ) * ((s : ℚ) / (a : ℚ)) ≤ (b : ℚ) * ((s : ℚ) / (a : ℚ)) :=
    mul_le_mul_of_nonneg_right (by exact_mod_cast hab) (by positivity)
  push_cast
  linarith

/-- C5: the geometry calculator returns
`(floor (height * scale), floor (width * scale))` for
`scale = smallest_side / min height width` (the truncating cast agrees
with the floor here since everything is nonnegative), and the smaller
of the two results equals `smallest_side` exactly — in particular
within the claimed truncation error of at most one unit. -/
theorem smallest_size_formula_and_bound (height width smallest_side : Nat)
    (hh : 0 < height) (hw : 0 < width) (hs : 0 < smallest_side) :
    (_smallest_size_at_least height width smallest_side).1 =
      ⌊(height : ℚ) * ((smallest_side : ℚ) / ((min height width : Nat) : ℚ))⌋ ∧
    (_smallest_size_at_least height width smallest_side).2 =
      ⌊(width : ℚ) * ((smallest_side : ℚ) / ((min height width : Nat) : ℚ))⌋ ∧
    min (_smallest_size_at_least height width smallest_side).1
      (_smallest_size_at_least height width smallest_side).2 = (smallest_side : Int) ∧
    (min (_smallest_size_at_least height width smallest_side).1
      (_smallest_size_at_least height width smallest_side).2 -
        (smallest_side : Int)).natAbs ≤ 1 := by
  have hminpos : (0 : ℚ) < min (height : ℚ) (width : ℚ) :=
    lt_min (by exact_mod_cast hh) (by exact_mod_cast hw)
  have hscale : (0 : ℚ) ≤ (smallest_side : ℚ) / min (height : ℚ) (width : ℚ) :=
    div_nonneg (by positivity) (le_of_lt hminpos)
  have hq1 : (0 : ℚ) ≤ (height : ℚ) * ((smallest_side : ℚ) / min (height : ℚ) (width : ℚ)) :=
    mul_nonneg (by positivity) hscale
  have hq2 : (0 : ℚ) ≤ (width : ℚ) * ((smallest_side : ℚ) / min (height : ℚ) (width : ℚ)) :=
    mul_nonneg (by positivity) hscale
  have hfst : (_smallest_size_at_least height width smallest_side).1 =
      ⌊(height : ℚ) * ((smallest_side : ℚ) / min (height : ℚ) (width : ℚ))⌋ := by
    simp only [_smallest_size_at_least]
    exact truncToInt_of_nonneg _ hq1
  have hsnd : (_smallest_size_at_least height width smallest_side).2 =
      ⌊(width : ℚ) * ((smallest_side : ℚ) / min (height : ℚ) (width : ℚ))⌋ := by
    simp only [_smallest_size_at_least]
    exact truncToInt_of_nonneg _ hq2
  have hmin : min (_smallest_size_at_least height width smallest_side).1
      (_smallest_size_at_least height width smallest_side).2 = (smallest_side : Int) := by
    rw [hfst, hsnd]
    rcases le_total height width with hle | hle
    · have hminq : min (height : ℚ) (width : ℚ) = (height : ℚ) :=
        min_eq_left (by exact_mod_cast hle)
      rw [hminq, floor_scale_eq height smallest_side hh]
      exact min_eq_left (floor_scale_ge height width smallest_side hh hle)
    · have hminq : min (height : ℚ) (width : ℚ) = (width : ℚ) :=
        min_eq_right (by exact_mod_cast hle)
      rw [hminq, floor_scale_eq width smallest_side hw]
      exact min_eq_right (floor_scale_ge width height smallest_side hw hle)
  refine ⟨?_, ?_, hmin, ?_⟩
  · rw [hfst, Nat.cast_min]
  · rw [hsnd, Nat.cast_min]
  · rw [hmin]
    simp

/-- Witness for C5: a 300 × 400 image rescaled to smallest side 256
gets the new shape `(256, 341)` — `341 = floor (400 * 256 / 300)` — and
the smaller side is 256 exactly. -/
theorem smallest_size_formula_and_bound_witness :
    ((0 : Nat) < 300 ∧ (0 : Nat) < 400 ∧ (0 : Nat) < 256) ∧
    ((_smallest_size_at_least 300 400 256).1 =
        ⌊(300 : ℚ) * ((256 : ℚ) / ((min 300 400 : Nat) : ℚ))⌋ ∧
      (_smallest_size_at_least 300 400 256).2 =
        ⌊(400 : ℚ) * ((256 : ℚ) / ((min 300 400 : Nat) : ℚ))⌋ ∧
      min (_smallest_size_at_least 300 400 256).1
        (_smallest_size_at_least 300 400 256).2 = (256 : Int) ∧
      (min (_smallest_size_at_least 300 400 256).1
        (_smallest_size_at_least 300 400 256).2 - (256 : Int)).natAbs ≤ 1) :=
  ⟨⟨by decide, by decide, by decide⟩,
   smallest_size_formula_and_bound 300 400 256 (by decide) (by decide) (by decide)⟩

end BnnOptimization

namespace BnnOptimization

/-- Inversion of a successful `Except` bind. -/
theorem except_bind_ok {α β : Type} {x : Except PipelineError α}
    {f : α → Except PipelineError β} {b : β} (h : (x >>= f) = Except.ok b) :
    ∃ a, x = Except.ok a ∧ f a = Except.ok b := by
  cases x with
  | error e => simp [Bind.bind, Except.bind] at h
  | ok a => exact ⟨a, rfl, h⟩

/-- A successful `set_shape` passes the image through and certifies its
shape. -/
theorem set_shape_ok {image : Image} {a b c : Nat} {out : Image}
    (h : set_shape image a b c = Except.ok out) :
    out.height = a ∧ out.width = b ∧ out.channels = c := by
  unfold set_shape at h
  split at h
  · next hcond =>
    cases h
    exact hcond
  · simp at h

/-- Mean subtraction preserves the shape of its input. -/
theorem mean_sub_shape {image : Image} {means : List ℚ} {out : Image}
    (h : _mean_image_subtraction image means = Except.ok out) :
    out.height = image.height ∧ out.width = image.width ∧
      out.channels = image.channels := by
  simp only [_mean_image_subtraction, broadcast_to] at h
  split at h
  · simp at h
  · split at h
    · simp only [Bind.bind, Except.bind, Except.ok.injEq] at h
      subst h
      exact ⟨rfl, rfl, rfl⟩
    · simp [Bind.bind, Except.bind] at h

/-- Scale normalization preserves the shape of its input. -/
theorem scale_norm_shape {image : Image} {stds : List ℚ} {out : Image}
    (h : _scale_normalization image stds = Except.ok out) :
    out.height = image.height ∧ out.width = image.width ∧
      out.channels = image.channels := by
  unfold _scale_normalization broadcast_to at h
  split at h
  · simp only [Bind.bind, Except.bind, Except.ok.injEq] at h
    subst h
    exact ⟨rfl, rfl, rfl⟩
  · simp [Bind.bind, Except.bind] at h

/-- C4: whenever the orchestrator returns at all, the output has
exactly shape `(output_height, output_width, channels)` with `channels`
the channel count recorded from the input before any transform; and the
post-crop re-assert (`set_shape`) fails with the shape-mismatch error
on any image whose actual shape differs from the asserted one. -/
theorem preprocess_output_shape (image : Image) (oh ow : Nat) (tr : Bool)
    (rsm rsM : Nat) (rand : RandomSource) (out : Image)
    (h : preprocess_image image oh ow tr rsm rsM rand = Except.ok out) :
    (out.height = oh ∧ out.width = ow ∧ out.channels = image.channels) ∧
    (∀ (img : Image) (a b c : Nat),
      ¬(img.height = a ∧ img.width = b ∧ img.channels = c) →
      set_shape img a b c = Except.error PipelineError.shapeMismatch) := by
  constructor
  · unfold preprocess_image at h
    obtain ⟨side, hside, h⟩ := except_bind_ok h
    obtain ⟨cropped, hcrop, h⟩ := except_bind_ok h
    obtain ⟨shaped, hshape, h⟩ := except_bind_ok h
    obtain ⟨centered, hcent, h⟩ := except_bind_ok h
    have s1 := set_shape_ok hshape
    have s2 := mean_sub_shape hcent
    have s3 := scale_norm_shape h
    exact ⟨by rw [s3.1, s2.1, s1.1], by rw [s3.2.1, s2.2.1, s1.2.1],
      by rw [s3.2.2, s2.2.2, s1.2.2]⟩
  · intro img a b c hne
    unfold set_shape
    rw [if_neg hne]

/-- Evaluation-mode unfolding of the orchestrator: no random draw, the
resize side is `resize_side_min`, the crop is central. -/
theorem preprocess_eval_mode (image : Image) (oh ow rsm rsM : Nat) (r : RandomSource) :
    preprocess_image image oh ow false rsm rsM r =
      (_central_crop (_aspect_preserving_resize image rsm) oh ow >>= fun cropped =>
       set_shape cropped oh ow image.channels >>= fun shaped =>
       _mean_image_subtraction shaped [_R_MEAN, _G_MEAN, _B_MEAN] >>= fun centered =>
       _scale_normalization centered [_R_STD, _G_STD, _B_STD]) := rfl

/-- The geometry computation at the witness input. -/
theorem geom_eval_300_400 : _smallest_size_at_least 300 400 256 = (256, 341) := by
  simp only [_smallest_size_at_least, truncToInt]
  have hmin : min ((300 : Nat) : ℚ) ((400 : Nat) : ℚ) = ((300 : Nat) : ℚ) :=
    min_eq_left (by norm_num)
  rw [hmin]
  simp only [Prod.mk.injEq]
  constructor
  · rw [if_pos (by positivity)]
    norm_num
  · rw [if_pos (by positivity)]
    norm_num

/-- The aspect-preserving resize at the witness input produces a
256 × 341 image. -/
theorem aspect_resize_eval :
    _aspect_preserving_resize (testImage 300 400 3) 256 =
      resizeBilinear (testImage 300 400 3) 256 341 := by
  simp only [_aspect_preserving_resize, _get_h_w, testImage, geom_eval_300_400]
  rfl

/-- The evaluation-mode pipeline succeeds on the 300 × 400 × 3 witness
image. -/
theorem preprocess_concrete_isOk :
    (preprocess_image (testImage 300 400 3) 224 224 false 256 512 rand0).isOk = true := by
  rw [preprocess_eval_mode]
  rw [aspect_resize_eval]
  rfl

/-- Witness for C4: the 300 × 400 × 3 evaluation run yields a
`(224, 224, 3)` output, and `set_shape` rejects a 100 × 100 image
asserted as 224 × 224. -/
theorem preprocess_output_shape_witness :
    shapeOf (preprocess_image (testImage 300 400 3) 224 224 false 256 512 rand0) =
      some (224, 224, 3) ∧
    set_shape (testImage 100 100 3) 224 224 3 =
      Except.error PipelineError.shapeMismatch := by
  have hOk := preprocess_concrete_isOk
  cases hEq : preprocess_image (testImage 300 400 3) 224 224 false 256 512 rand0 with
  | error e =>
    rw [hEq] at hOk
    simp [Except.isOk, Except.toBool] at hOk
  | ok out =>
    have H := preprocess_output_shape (testImage 300 400 3) 224 224 false 256 512
      rand0 out hEq
    refine ⟨?_, H.2 (testImage 100 100 3) 224 224 3 (by decide)⟩
    simp only [shapeOf, hEq, Except.toOption, Option.map]
    rw [H.1.1, H.1.2.1, H.1.2.2]
    rfl

end BnnOptimization
